import Mathlib

/-!
Verification of the air-quality dashboard pipeline
(`src/air_quality_plotting.py`): the AQI classifier, the loader
normalisation, the four-stage filter pipeline, the legend colour map and
the summary statistics, shallowly embedded in Lean.

Conventions of the embedding:
* pandas `DataFrame` rows become a `List Record`; every pandas boolean-mask
  step becomes a `List.filter`.
* `datetime.date` becomes the `Date` structure below with its total
  lexicographic order; `NaT` (a coerced parse failure) becomes `Option.none`.
* Python floats become `ℚ` (the pipeline only compares and averages them).
* Python `int(x)` (truncation toward zero) becomes `pyInt`.
-/

/-- A calendar date (year, month, day), as produced by
`pd.to_datetime(...).dt.date`. -/
structure Date where
  year : Nat
  month : Nat
  day : Nat
deriving DecidableEq, Repr

/-- Lexicographic `≤` on dates: the comparison Python's `datetime.date`
uses. -/
def Date.ble (a b : Date) : Bool :=
  decide (a.year < b.year ∨ (a.year = b.year ∧
    (a.month < b.month ∨ (a.month = b.month ∧ a.day ≤ b.day))))

/-- Python `int()` applied to a rational: truncation toward zero. -/
def pyInt (q : ℚ) : Int :=
  if q < 0 then ⌈q⌉ else ⌊q⌋

/-- Function `aqi_category` (lines 12-27): maps an AQI score to a
(health category, colour) pair; the score is first coerced with `int()`. -/
def aqi_category (aqi : ℚ) : String × String :=
  let a : Int := pyInt aqi
  if a ≤ 50 then ("Good", "#009966")
  else if a ≤ 100 then ("Moderate", "#ffde33")
  else if a ≤ 150 then ("Unhealthy for Sensitive Groups", "#ff9933")
  else if a ≤ 200 then ("Unhealthy", "#cc0033")
  else if a ≤ 300 then ("Very Unhealthy", "#660099")
  else ("Hazardous", "#7e0023")

/-- One raw CSV row, after pandas parsing of the date/time columns:
`record_date`/`time_utc` are `none` when `pd.to_datetime(-, errors :=
coerce)` produced `NaT`, and `aqi_raw` is `none` when the `aqi_overall`
cell held the literal sentinel string `N/A`. -/
structure RawRecord where
  city_name : String
  latitude : ℚ
  longitude : ℚ
  record_type : String
  record_date : Option Date
  time_utc : Option Int
  aqi_raw : Option Int
  pm25 : ℚ
  pm10 : ℚ
  o3 : ℚ
  temp : ℚ
  humidity : ℚ
deriving DecidableEq, Repr

/-- One cleaned row of the loaded DataFrame, with the derived
`aqi_category` / `color_code` columns. -/
structure Record where
  city_name : String
  latitude : ℚ
  longitude : ℚ
  record_type : String
  record_date : Option Date
  time_utc : Option Int
  aqi_overall : Int
  pm25 : ℚ
  pm10 : ℚ
  o3 : ℚ
  temp : ℚ
  humidity : ℚ
  aqi_category : String
  color_code : String
deriving DecidableEq, Repr

/-- Row-wise body of `load_data` (lines 40-49): replace the `N/A`
sentinel in `aqi_overall` with 0, then derive `aqi_category` and
`color_code` via `aqi_category`. -/
def loadRecord (raw : RawRecord) : Record :=
  let aqi : Int := match raw.aqi_raw with
    | none => 0
    | some n => n
  let cc := aqi_category (aqi : ℚ)
  { city_name := raw.city_name
    latitude := raw.latitude
    longitude := raw.longitude
    record_type := raw.record_type
    record_date := raw.record_date
    time_utc := raw.time_utc
    aqi_overall := aqi
    pm25 := raw.pm25
    pm10 := raw.pm10
    o3 := raw.o3
    temp := raw.temp
    humidity := raw.humidity
    aqi_category := cc.1
    color_code := cc.2 }

/-- Loader `load_data` (lines 31-50): clean every parsed row.  (The
file-not-found branch aborts the session before the pipeline runs and is
outside this embedding.) -/
def load_data (rows : List RawRecord) : List Record :=
  rows.map loadRecord

/-- The sidebar filter state: the checkbox, the two date pickers, the
station selectbox (the literal `All Stations` entry disables the station
filter) and the PM2.5 range slider. -/
structure FilterSpec where
  show_current_only : Bool
  from_date : Date
  to_date : Date
  selected_city : String
  pm25_range : ℚ × ℚ
deriving DecidableEq, Repr

/-- The fixed date `pd.to_datetime('2025-12-07').date()` (line 132). -/
def current_date : Date := ⟨2025, 12, 7⟩

/-- Variable `start_date` (lines 136-143): the lower date bound actually used,
after swapping an inverted `from_date > to_date` pair. -/
def start_date (F : FilterSpec) : Date :=
  if !(Date.ble F.from_date F.to_date) then F.to_date else F.from_date

/-- Variable `end_date` (lines 136-143): the upper date bound actually used. -/
def end_date (F : FilterSpec) : Date :=
  if !(Date.ble F.from_date F.to_date) then F.from_date else F.to_date

/-- The record-type mask (lines 75-76): when the `Current` checkbox is
on, keep rows with `record_type == 'Current'`; otherwise pass all. -/
def record_type_pred (F : FilterSpec) (r : Record) : Bool :=
  !F.show_current_only || decide (r.record_type = "Current")

/-- The date mask (lines 129-149): with the checkbox on, keep the fixed
date `2025-12-07`; otherwise keep dates within `[start_date, end_date]`.
A `NaT` date compares false either way, as in pandas. -/
def date_pred (F : FilterSpec) (r : Record) : Bool :=
  if F.show_current_only then
    decide (r.record_date = some current_date)
  else
    match r.record_date with
    | none => false
    | some d => Date.ble (start_date F) d && Date.ble d (end_date F)

/-- The station mask (lines 162-163). -/
def station_pred (F : FilterSpec) (r : Record) : Bool :=
  decide (F.selected_city = "All Stations") || decide (r.city_name = F.selected_city)

/-- The PM2.5 mask (lines 185-188): `pm25_range[0] <= pm25 <=
pm25_range[1]`. -/
def pm25_pred (F : FilterSpec) (r : Record) : Bool :=
  decide (F.pm25_range.1 ≤ r.pm25) && decide (r.pm25 ≤ F.pm25_range.2)

/-- Pipeline `df_filtered` (lines 69-188): the four filter stages exactly as the
script chains them.  The date stage is guarded by
`if not df_filtered.empty` (line 129); the station and PM2.5 stages are
unconditional. -/
def dfFiltered (df : List Record) (F : FilterSpec) : List Record :=
  let d1 :=
    if F.show_current_only then
      df.filter (fun r => decide (r.record_type = "Current"))
    else df
  let d2 :=
    if d1.isEmpty then d1
    else if F.show_current_only then
      d1.filter (fun r => decide (r.record_date = some current_date))
    else
      d1.filter (fun r =>
        match r.record_date with
        | none => false
        | some d => Date.ble (start_date F) d && Date.ble d (end_date F))
  let d3 :=
    if !(decide (F.selected_city = "All Stations")) then
      d2.filter (fun r => decide (r.city_name = F.selected_city))
    else d2
  d3.filter (fun r =>
    decide (F.pm25_range.1 ≤ r.pm25) && decide (r.pm25 ≤ F.pm25_range.2))

/-- Column minimum `df['pm25'].min()` (line 167): `none` models pandas `NaN` on an
empty frame. -/
def pm25_min_overall : List Record → Option ℚ
  | [] => none
  | r :: rs => some (rs.foldl (fun m x => min m x.pm25) r.pm25)

/-- Column maximum `df['pm25'].max()` (line 168). -/
def pm25_max_overall : List Record → Option ℚ
  | [] => none
  | r :: rs => some (rs.foldl (fun m x => max m x.pm25) r.pm25)

/-- The slider default `value=(0.0, pm25_max_overall)` (line 176): the
PM2.5 range used when the user touches nothing. -/
def defaultPm25Range (df : List Record) : Option (ℚ × ℚ) :=
  (pm25_max_overall df).map (fun m => (0, m))

/-- Column maximum `df_filtered['aqi_overall'].max()` (line 196). -/
def max_aqi_of : List Record → Option Int
  | [] => none
  | r :: rs => some (rs.foldl (fun m x => max m x.aqi_overall) r.aqi_overall)

/-- The summary metrics block (lines 194-216). -/
structure Summary where
  maxAqi : Option Int
  worstStation : Option String
  meanPm25 : Option ℚ
  count : Nat
deriving DecidableEq, Repr

/-- Lines 194-216: compute the metrics only when the filtered frame is
non-empty; `worst_station` is `iloc[0]` of the rows attaining the max
(modelled by `head?`, whose failure would be the `IndexError` the guard
prevents). -/
def summarize (df : List Record) : Option Summary :=
  if df.isEmpty then
    some { maxAqi := none, worstStation := none, meanPm25 := none, count := 0 }
  else do
    let m ← max_aqi_of df
    let w ← (df.filter (fun r => decide (r.aqi_overall = m))).head?
    pure { maxAqi := some m
           worstStation := some w.city_name
           meanPm25 := some ((df.map (·.pm25)).sum / (df.length : ℚ))
           count := df.length }

/-- Legend order `category_order` (line 227). -/
def category_order : List String :=
  ["Good", "Moderate", "Unhealthy for Sensitive Groups", "Unhealthy",
   "Very Unhealthy", "Hazardous"]

/-- Legend colours `color_map` (line 229): `{cat: aqi_category(i * 51)[1] for i, cat in
enumerate(category_order)}`. -/
def color_map : List (String × String) :=
  category_order.enum.map (fun p => (p.2, (aqi_category ((p.1 * 51 : ℕ) : ℚ)).2))

/-! Concrete test fixtures (used to instantiate the theorems below). -/

/-- A well-formed `Current` row of 2025-12-07. -/
def exRaw1 : RawRecord :=
  { city_name := "Bangkok", latitude := 13, longitude := 100,
    record_type := "Current", record_date := some ⟨2025, 12, 7⟩,
    time_utc := some 100, aqi_raw := some 120, pm25 := 15,
    pm10 := 20, o3 := 5, temp := 30, humidity := 60 }

/-- A row whose `record_date` failed to parse (`NaT`) and whose
`aqi_overall` cell held the `N/A` sentinel. -/
def exRaw2 : RawRecord :=
  { exRaw1 with
    city_name := "Chiang Mai"
    record_type := "Forecast"
    record_date := none
    aqi_raw := none
    pm25 := 60 }

/-- The two-row example dataset. -/
def exDf : List Record := load_data [exRaw1, exRaw2]

/-- The untouched-sidebar filter state over `exDf`: checkbox off, date
pickers at the dataset's own (valid-date) min/max, `All Stations`, and
the slider at its default `(0, pm25 max)`. -/
def exDefaultSpec : FilterSpec :=
  { show_current_only := false, from_date := ⟨2025, 12, 7⟩,
    to_date := ⟨2025, 12, 7⟩, selected_city := "All Stations",
    pm25_range := (0, 60) }

/-- A filter state with the `Current` checkbox on. -/
def exCurSpec : FilterSpec :=
  { exDefaultSpec with
    show_current_only := true
    from_date := ⟨2024, 1, 1⟩
    to_date := ⟨2024, 2, 2⟩ }

/-- A filter state with an inverted date range (`from > to`). -/
def exInvSpec : FilterSpec :=
  { exDefaultSpec with from_date := ⟨2025, 12, 31⟩, to_date := ⟨2025, 1, 1⟩ }

/-- A dataset whose observed PM2.5 minimum is negative. -/
def exNegDf : List Record :=
  load_data [exRaw1, { exRaw1 with city_name := "Phuket", pm25 := -1 }]

/-! Helper lemmas. -/

theorem date_ble_total (a b : Date) (h : Date.ble a b = false) :
    Date.ble b a = true := by
  simp only [Date.ble, decide_eq_false_iff_not, decide_eq_true_eq] at *
  omega

theorem filter_flatten4 {α} (p1 p2 p3 p4 : α → Bool) (l : List α) :
    (((l.filter p1).filter p2).filter p3).filter p4
      = l.filter (fun a => p1 a && p2 a && p3 a && p4 a) := by
  simp only [List.filter_filter]
  apply List.filter_congr
  intro x _
  cases p1 x <;> cases p2 x <;> cases p3 x <;> cases p4 x <;> rfl

theorem stage1_eq (df : List Record) (F : FilterSpec) :
    (if F.show_current_only then
      df.filter (fun r => decide (r.record_type = "Current"))
    else df) = df.filter (fun r => record_type_pred F r) := by
  cases h : F.show_current_only <;> simp [h, record_type_pred]

theorem stage2_eq (d : List Record) (F : FilterSpec) :
    (if d.isEmpty then d
     else if F.show_current_only then
       d.filter (fun r => decide (r.record_date = some current_date))
     else
       d.filter (fun r =>
         match r.record_date with
         | none => false
         | some dd => Date.ble (start_date F) dd && Date.ble dd (end_date F)))
    = d.filter (fun r => date_pred F r) := by
  cases he : d.isEmpty
  · simp only [he, Bool.false_eq_true, if_false]
    cases h : F.show_current_only <;> simp [h, date_pred]
  · rw [List.isEmpty_iff.mp he]
    simp


theorem stage3_eq (d : List Record) (F : FilterSpec) :
    (if !(decide (F.selected_city = "All Stations")) then
      d.filter (fun r => decide (r.city_name = F.selected_city))
    else d) = d.filter (fun r => station_pred F r) := by
  by_cases h : F.selected_city = "All Stations" <;> simp [h, station_pred]

/-- The whole pipeline is one conjunctive filter over the loaded frame:
exactly the rows passing all four masks survive, in their original
order. -/
theorem dfFiltered_eq_filter (df : List Record) (F : FilterSpec) :
    dfFiltered df F = df.filter (fun r =>
      record_type_pred F r && date_pred F r && station_pred F r && pm25_pred F r) := by
  have h4 : (fun (r : Record) =>
      decide (F.pm25_range.1 ≤ r.pm25) && decide (r.pm25 ≤ F.pm25_range.2))
      = (fun r => pm25_pred F r) := rfl
  simp only [dfFiltered]
  rw [stage1_eq, stage2_eq, stage3_eq, h4, filter_flatten4]

theorem foldl_max_eq_or_mem {α} [LinearOrder α] (l : List α) (a : α) :
    l.foldl max a = a ∨ l.foldl max a ∈ l := by
  induction l generalizing a with
  | nil => exact Or.inl rfl
  | cons b t ih =>
    rw [List.foldl_cons]
    rcases ih (max a b) with h | h
    · rw [h]
      rcases max_choice a b with h2 | h2
      · exact Or.inl h2
      · rw [h2]; exact Or.inr (List.mem_cons_self b t)
    · exact Or.inr (List.mem_cons_of_mem b h)

theorem le_foldl_max {α} [LinearOrder α] (l : List α) (a : α) :
    a ≤ l.foldl max a := by
  induction l generalizing a with
  | nil => exact le_refl a
  | cons b t ih => exact le_trans (le_max_left a b) (ih (max a b))

theorem mem_le_foldl_max {α} [LinearOrder α] (l : List α) (a x : α) (hx : x ∈ l) :
    x ≤ l.foldl max a := by
  induction l generalizing a with
  | nil => cases hx
  | cons b t ih =>
    rw [List.foldl_cons]
    rcases List.mem_cons.mp hx with h | h
    · rw [h]; exact le_trans (le_max_right a b) (le_foldl_max t (max a b))
    · exact ih (max a b) h

theorem max_aqi_attained (df : List Record) (m : Int) (h : max_aqi_of df = some m) :
    ∃ w ∈ df, w.aqi_overall = m := by
  match df with
  | [] => simp [max_aqi_of] at h
  | r :: rs =>
    simp only [max_aqi_of, Option.some.injEq] at h
    rw [show rs.foldl (fun m x => max m x.aqi_overall) r.aqi_overall
        = (rs.map (fun x => x.aqi_overall)).foldl max r.aqi_overall from
      (List.foldl_map _ _ _ _).symm] at h
    rcases foldl_max_eq_or_mem (rs.map fun x => x.aqi_overall) r.aqi_overall with h2 | h2
    · exact ⟨r, List.mem_cons_self r rs, by rw [← h, h2]⟩
    · obtain ⟨w, hw, hwa⟩ := List.mem_map.mp h2
      exact ⟨w, List.mem_cons_of_mem r hw, by rw [hwa, h]⟩

theorem head?_filter_eq_find? {α} (p : α → Bool) (l : List α) :
    (l.filter p).head? = l.find? p := by
  induction l with
  | nil => rfl
  | cons a t ih => cases h : p a <;> simp [List.filter_cons, List.find?_cons, h, ih]

theorem summarize_isSome (df : List Record) : ∃ s, summarize df = some s := by
  match df with
  | [] => exact ⟨_, rfl⟩
  | r :: rs =>
    cases hm : max_aqi_of (r :: rs) with
    | none => simp [max_aqi_of] at hm
    | some m =>
      obtain ⟨w, hw, hwa⟩ := max_aqi_attained _ _ hm
      have hfil : w ∈ (r :: rs).filter (fun x => decide (x.aqi_overall = m)) :=
        List.mem_filter.mpr ⟨hw, by simp [hwa]⟩
      cases hf : (r :: rs).filter (fun x => decide (x.aqi_overall = m)) with
      | nil => rw [hf] at hfil; cases hfil
      | cons w0 tl =>
        have hfind : List.find? (fun x => decide (x.aqi_overall = m)) (r :: rs) = some w0 := by
          rw [← head?_filter_eq_find?, hf]; rfl
        refine ⟨{ maxAqi := some m, worstStation := some w0.city_name,
                  meanPm25 := some (((r :: rs).map (fun x => x.pm25)).sum / (((r :: rs).length : ℕ) : ℚ)),
                  count := (r :: rs).length }, ?_⟩
        simp [summarize, hm, hfind]

theorem pyInt_intCast (n : ℤ) : pyInt ((n : ℚ)) = n := by
  unfold pyInt
  split
  · exact Int.ceil_intCast n
  · exact Int.floor_intCast n

/-! Claim theorems. -/

/-- Claim C1: `aqi_category` first truncates its input toward zero
(Python `int()`), then returns exactly the (label, colour) pair of the
fixed inclusive-upper-bound breakpoint table, with every negative input
landing in `Good`. -/
theorem aqi_category_table :
    (∀ q : ℚ, aqi_category q = aqi_category ((pyInt q : ℤ) : ℚ)) ∧
    (∀ q : ℚ, (0 ≤ q → pyInt q = ⌊q⌋) ∧ (q < 0 → pyInt q = ⌈q⌉)) ∧
    (∀ q : ℚ, q < 0 → aqi_category q = ("Good", "#009966")) ∧
    (∀ a : ℤ,
      (a ≤ 50 → aqi_category ((a : ℚ)) = ("Good", "#009966")) ∧
      (50 < a → a ≤ 100 → aqi_category ((a : ℚ)) = ("Moderate", "#ffde33")) ∧
      (100 < a → a ≤ 150 →
        aqi_category ((a : ℚ)) = ("Unhealthy for Sensitive Groups", "#ff9933")) ∧
      (150 < a → a ≤ 200 → aqi_category ((a : ℚ)) = ("Unhealthy", "#cc0033")) ∧
      (200 < a → a ≤ 300 → aqi_category ((a : ℚ)) = ("Very Unhealthy", "#660099")) ∧
      (300 < a → aqi_category ((a : ℚ)) = ("Hazardous", "#7e0023"))) := by
  refine ⟨fun q => by simp only [aqi_category, pyInt_intCast], fun q => ⟨fun h => ?_, fun h => ?_⟩,
    fun q h => ?_, fun a => ?_⟩
  · unfold pyInt; rw [if_neg (not_lt.mpr h)]
  · unfold pyInt; rw [if_pos h]
  · have hc : pyInt q ≤ 50 := by
      have h1 : pyInt q = ⌈q⌉ := by unfold pyInt; rw [if_pos h]
      have h2 : ⌈q⌉ ≤ 0 := Int.ceil_le.mpr (by exact_mod_cast le_of_lt h)
      omega
    simp only [aqi_category]
    rw [if_pos hc]
  · simp only [aqi_category, pyInt_intCast]
    refine ⟨fun h1 => ?_, fun h1 h2 => ?_, fun h1 h2 => ?_, fun h1 h2 => ?_,
      fun h1 h2 => ?_, fun h1 => ?_⟩
    · rw [if_pos h1]
    · rw [if_neg (by omega), if_pos h2]
    · rw [if_neg (by omega), if_neg (by omega), if_pos h2]
    · rw [if_neg (by omega), if_neg (by omega), if_neg (by omega), if_pos h2]
    · rw [if_neg (by omega), if_neg (by omega), if_neg (by omega), if_neg (by omega),
        if_pos h2]
    · rw [if_neg (by omega), if_neg (by omega), if_neg (by omega), if_neg (by omega),
        if_neg (by omega)]

/-- Witness for C1 at concrete scores 301 and -7. -/
theorem aqi_category_table_witness :
    aqi_category (((301 : ℤ) : ℚ)) = ("Hazardous", "#7e0023") ∧
    aqi_category (((-7 : ℤ) : ℚ)) = ("Good", "#009966") ∧
    pyInt (((-7 : ℤ) : ℚ)) = ⌈(((-7 : ℤ) : ℚ))⌉ :=
  ⟨(aqi_category_table.2.2.2 301).2.2.2.2.2 (by decide),
   aqi_category_table.2.2.1 (((-7 : ℤ) : ℚ)) (by decide),
   (aqi_category_table.2.1 (((-7 : ℤ) : ℚ))).2 (by decide)⟩

/-- Claim C2: the filter pipeline returns exactly the records of the
input satisfying all four predicates (record type, date range, station,
PM2.5 range) combined by logical AND, preserving the original relative
order (the result is literally a single `List.filter` of the input, and
a sublist of it). -/
theorem pipeline_is_conjunctive_filter (df : List Record) (F : FilterSpec) :
    dfFiltered df F = df.filter (fun r =>
      record_type_pred F r && date_pred F r && station_pred F r && pm25_pred F r) ∧
    (dfFiltered df F).Sublist df := by
  refine ⟨dfFiltered_eq_filter df F, ?_⟩
  rw [dfFiltered_eq_filter]
  exact List.filter_sublist df

/-- Claim C3: the filtered set is a sublist (hence subset, hence of
cardinality at most that) of the input, and filtering with the same
specification twice changes nothing. -/
theorem pipeline_subset_and_idempotent (df : List Record) (F : FilterSpec) :
    (dfFiltered df F).Sublist df ∧
    (dfFiltered df F).length ≤ df.length ∧
    dfFiltered (dfFiltered df F) F = dfFiltered df F := by
  refine ⟨?_, ?_, ?_⟩
  · rw [dfFiltered_eq_filter]
    exact List.filter_sublist df
  · rw [dfFiltered_eq_filter]
    exact List.length_filter_le _ df
  · rw [dfFiltered_eq_filter df F, dfFiltered_eq_filter, List.filter_filter]
    apply List.filter_congr
    intro x _
    exact Bool.and_self _

/-- Claim C4: with an inverted date range (`from_date > to_date`, i.e.
`from ≤ to` fails), the pipeline behaves exactly as with the two bounds
swapped; the result is not forced empty. -/
theorem inverted_range_equals_swapped (df : List Record) (F : FilterSpec)
    (h : Date.ble F.from_date F.to_date = false) :
    dfFiltered df F =
      dfFiltered df { F with from_date := F.to_date, to_date := F.from_date } := by
  have hba := date_ble_total _ _ h
  rw [dfFiltered_eq_filter, dfFiltered_eq_filter]
  apply List.filter_congr
  intro x _
  have hs : start_date { F with from_date := F.to_date, to_date := F.from_date }
      = start_date F := by
    simp [start_date, h, hba]
  have he : end_date { F with from_date := F.to_date, to_date := F.from_date }
      = end_date F := by
    simp [end_date, h, hba]
  simp [record_type_pred, date_pred, station_pred, pm25_pred, hs, he]

/-- Witness for C4: on the example dataset with `from = 2025-12-31 >
to = 2025-01-01`, the pipeline equals the swapped-bounds pipeline and
returns the one valid-dated row (not the empty set). -/
theorem inverted_range_equals_swapped_witness :
    dfFiltered exDf exInvSpec =
      dfFiltered exDf
        { exInvSpec with from_date := exInvSpec.to_date, to_date := exInvSpec.from_date } ∧
    dfFiltered exDf exInvSpec = [loadRecord exRaw1] :=
  ⟨inverted_range_equals_swapped exDf exInvSpec (by decide), by decide⟩

/-- Counterexample to claim C5 as stated: on a dataset whose observed
PM2.5 minimum is -1, the code's slider default is `(0, observed max)` —
not the observed minimum — and the pipeline run with that default range
drops the negative-PM2.5 record instead of passing every record. -/
theorem default_pm25_range_counterexample :
    pm25_min_overall exNegDf = some (-1) ∧
    defaultPm25Range exNegDf = some (0, 15) ∧
    dfFiltered exNegDf { exDefaultSpec with pm25_range := (0, 15) } ≠ exNegDf := by
  decide

/-- Claim C5 (amended): the PM2.5 predicate is always applied with both
bounds supplied; the default bounds are `(0, observed dataset maximum)`,
so with the defaults the PM2.5 mask reduces to `0 ≤ pm25` on dataset
records, and it passes the whole dataset exactly when every reading is
non-negative. -/
theorem default_pm25_range_behavior (df : List Record) (F : FilterSpec) (rng : ℚ × ℚ)
    (h1 : defaultPm25Range df = some rng) (h2 : F.pm25_range = rng) :
    rng.1 = 0 ∧
    (∀ r ∈ df, pm25_pred F r = decide (0 ≤ r.pm25)) ∧
    ((∀ r ∈ df, 0 ≤ r.pm25) → df.filter (fun r => pm25_pred F r) = df) := by
  match df with
  | [] => simp [defaultPm25Range, pm25_max_overall] at h1
  | r0 :: rs =>
    simp only [defaultPm25Range, pm25_max_overall, Option.map_some', Option.some.injEq] at h1
    have h0 : rng.1 = 0 := by rw [← h1]
    have hmax : rng.2 = (rs.map fun x => x.pm25).foldl max r0.pm25 := by
      rw [← h1]
      exact (List.foldl_map (fun x : Record => x.pm25) max rs r0.pm25).symm
    have hub : ∀ r ∈ r0 :: rs, r.pm25 ≤ rng.2 := by
      intro r hr
      rw [hmax]
      rcases List.mem_cons.mp hr with h | h
      · rw [h]; exact le_foldl_max _ _
      · exact mem_le_foldl_max _ _ _ (List.mem_map_of_mem _ h)
    have hmask : ∀ r ∈ r0 :: rs, pm25_pred F r = decide (0 ≤ r.pm25) := by
      intro r hr
      simp only [pm25_pred, h2, h0]
      rw [decide_eq_true (hub r hr), Bool.and_true]
    refine ⟨h0, hmask, fun hpos => ?_⟩
    rw [List.filter_eq_self]
    intro r hr
    show pm25_pred F r = true
    rw [hmask r hr]
    exact decide_eq_true (hpos r hr)

/-- Witness for C5 (amended) on the example dataset: its default range
is `(0, 60)` and, all readings being non-negative, the default PM2.5
mask keeps every record. -/
theorem default_pm25_range_behavior_witness :
    exDf.filter (fun r => pm25_pred exDefaultSpec r) = exDf :=
  (default_pm25_range_behavior exDf exDefaultSpec (0, 60) (by decide) rfl).2.2
    (by decide)

/-- Claim C6 (code bug): the legend dictionary probes each category at
AQI `i * 51`, but index 5 probes 255, which still falls in the
`Very Unhealthy` band (255 ≤ 300); so `Hazardous` is assigned the
Very-Unhealthy colour `#660099` while the classifier's own table gives
`Hazardous` the colour `#7e0023`.  The first five entries are correct. -/
theorem color_map_hazardous_wrong_color :
    color_map.lookup "Good" = some "#009966" ∧
    color_map.lookup "Moderate" = some "#ffde33" ∧
    color_map.lookup "Unhealthy for Sensitive Groups" = some "#ff9933" ∧
    color_map.lookup "Unhealthy" = some "#cc0033" ∧
    color_map.lookup "Very Unhealthy" = some "#660099" ∧
    color_map.lookup "Hazardous" = some "#660099" ∧
    (aqi_category (((255 : ℤ) : ℚ))).1 = "Very Unhealthy" ∧
    (aqi_category (((301 : ℤ) : ℚ))).2 = "#7e0023" := by
  decide

/-- Claim C7: a row whose `aqi_overall` cell held the `N/A` sentinel is
normalised to the integer 0 by the loader, and its derived category is
`Good` (with the `Good` colour). -/
theorem sentinel_normalized_to_good (raw : RawRecord) (h : raw.aqi_raw = none) :
    (loadRecord raw).aqi_overall = 0 ∧
    (loadRecord raw).aqi_category = "Good" ∧
    (loadRecord raw).color_code = "#009966" := by
  refine ⟨?_, ?_, ?_⟩ <;> simp only [loadRecord, h] <;> decide

/-- Witness for C7 at the concrete sentinel row `exRaw2`. -/
theorem sentinel_normalized_to_good_witness :
    (loadRecord exRaw2).aqi_overall = 0 ∧
    (loadRecord exRaw2).aqi_category = "Good" ∧
    (loadRecord exRaw2).color_code = "#009966" :=
  sentinel_normalized_to_good exRaw2 rfl

/-- Counterexample to claim C8 as stated: under the untouched-sidebar
filter state (the user supplied no date bounds, so the pickers hold
their defaults), the loader-retained null-date record is NOT kept: the
pipeline's date mask always runs and always rejects a null date. -/
theorem null_date_not_retained_counterexample :
    (loadRecord exRaw2).record_date = none ∧
    loadRecord exRaw2 ∈ load_data [exRaw1, exRaw2] ∧
    ¬ loadRecord exRaw2 ∈ dfFiltered (load_data [exRaw1, exRaw2]) exDefaultSpec := by
  decide

/-- Claim C8 (amended): a row whose date failed to parse is retained by
the loader with a null date (no row is dropped or raises), and such a
row is excluded by every date-range filter the pipeline can apply —
including the default bounds used when the user supplies none — because
the pipeline has no specification without date bounds: no record with a
null date ever survives `dfFiltered`. -/
theorem null_date_retained_by_loader_excluded_by_filter :
    (∀ rows : List RawRecord, load_data rows = rows.map loadRecord) ∧
    (∀ raw : RawRecord, (loadRecord raw).record_date = raw.record_date) ∧
    (∀ (df : List Record) (F : FilterSpec) (r : Record),
      r ∈ dfFiltered df F → r.record_date ≠ none) := by
  refine ⟨fun rows => rfl, fun raw => rfl, fun df F r hr hnone => ?_⟩
  rw [dfFiltered_eq_filter] at hr
  have hp := (List.mem_filter.mp hr).2
  simp only [Bool.and_eq_true] at hp
  have hd : date_pred F r = true := hp.1.1.2
  cases hsc : F.show_current_only <;> simp [date_pred, hsc, hnone] at hd

/-- Witness for C8 (amended): the surviving record of the example run
indeed has a non-null date. -/
theorem null_date_excluded_witness :
    (loadRecord exRaw1).record_date ≠ none :=
  null_date_retained_by_loader_excluded_by_filter.2.2 exDf exDefaultSpec
    (loadRecord exRaw1) (by decide)

/-- Claim C9: the filter pipeline and the summary computation are total:
on every input the summary succeeds (the guarded `max`/`iloc[0]` never
fail), and an empty filtered set yields `count = 0` with no max-AQI
station and no mean, rather than an error. -/
theorem summary_total_and_empty_safe (df : List Record) (F : FilterSpec) :
    (∃ s, summarize (dfFiltered df F) = some s) ∧
    (dfFiltered df F = [] →
      summarize (dfFiltered df F) =
        some { maxAqi := none, worstStation := none, meanPm25 := none, count := 0 }) := by
  refine ⟨summarize_isSome _, fun h => ?_⟩
  rw [h]
  rfl

/-- Witness for C9 on a concrete empty run. -/
theorem summary_total_and_empty_safe_witness :
    summarize (dfFiltered [] exDefaultSpec) =
      some { maxAqi := none, worstStation := none, meanPm25 := none, count := 0 } :=
  (summary_total_and_empty_safe [] exDefaultSpec).2 (by decide)

/-- Claim C10: with the `Current` checkbox on, the pipeline ignores the
date-picker values entirely (any pair of supplied bounds yields the same
result), and it keeps exactly the records with `record_type = 'Current'`
and `record_date = 2025-12-07`, with the station and PM2.5 masks applied
afterwards. -/
theorem current_checkbox_ignores_pickers (df : List Record) (F : FilterSpec)
    (h : F.show_current_only = true) :
    (∀ a b : Date, dfFiltered df { F with from_date := a, to_date := b } = dfFiltered df F) ∧
    dfFiltered df F =
      ((df.filter (fun r =>
          decide (r.record_type = "Current") && decide (r.record_date = some current_date))).filter
        (fun r => station_pred F r)).filter (fun r => pm25_pred F r) := by
  constructor
  · intro a b
    rw [dfFiltered_eq_filter, dfFiltered_eq_filter]
    apply List.filter_congr
    intro x _
    simp [record_type_pred, date_pred, station_pred, pm25_pred, h]
  · rw [dfFiltered_eq_filter, List.filter_filter, List.filter_filter]
    apply List.filter_congr
    intro x _
    simp only [record_type_pred, date_pred, h, Bool.not_true, Bool.false_or, if_true]
    cases decide (x.record_type = "Current") <;>
      cases decide (x.record_date = some current_date) <;>
        cases station_pred F x <;> cases pm25_pred F x <;> rfl

/-- Witness for C10: on the example dataset with the checkbox on, the
pipeline returns exactly the one `Current` 2025-12-07 row. -/
theorem current_checkbox_ignores_pickers_witness :
    dfFiltered exDf exCurSpec = [loadRecord exRaw1] :=
  ((current_checkbox_ignores_pickers exDf exCurSpec rfl).2).trans (by decide)
